import Mathlib

/-!
Shallow embedding of the kaspadbr sources:
  src/wallet/keys/src/publickey.rs   (PublicKey, XOnlyPublicKey)
  src/rpc/wrpc/python/src/resolver.rs (Resolver, into_network_id)

External collaborators (the secp256k1, sha2, ripemd and kaspa_consensus_core
crates) are embedded as follows: a secp256k1 public key is its compressed
serialization, i.e. a parity byte (2 for even y, 3 for odd y) followed by the
32-byte x coordinate; an x-only key is the bare 32-byte x coordinate; the hash
functions and the hex parsers of the secp256k1 crate are uninterpreted function
parameters of the definitions that call them.
-/

namespace KaspaDbr

/-- Lowercase hex digit for a value below 16 (48 is the code of 0, 97 of a). -/
def hexDigit (n : Nat) : Char :=
  if n < 10 then Char.ofNat (48 + n) else Char.ofNat (87 + n)

/-- Lowercase hex encoding of a byte list, two digits per byte.  Embeds the
`to_hex` calls of the source (faster_hex) and the secp256k1 Display instances,
both of which render lowercase hex of the serialized bytes. -/
def toHexChars : List Nat → List Char
  | [] => []
  | b :: t => hexDigit (b / 16) :: hexDigit (b % 16) :: toHexChars t

/-- Hex encoding of a byte list as a string. -/
def toHex (bs : List Nat) : String :=
  String.mk (toHexChars bs)

/-- Embeds secp256k1::PublicKey: a point in compressed form, i.e. the parity of
the y coordinate plus the 32-byte x coordinate. -/
structure SecpPublicKey where
  parityEven : Bool
  x : List Nat
deriving DecidableEq, Repr

/-- Embeds secp256k1::XOnlyPublicKey: the 32-byte x coordinate alone. -/
structure SecpXOnlyPublicKey where
  x : List Nat
deriving DecidableEq, Repr

/-- Compressed serialization: parity byte (2 when y is even, 3 when odd)
followed by the x coordinate — serialize() of secp256k1::PublicKey. -/
def SecpPublicKey.serialize (pk : SecpPublicKey) : List Nat :=
  (if pk.parityEven then 2 else 3) :: pk.x

/-- x_only_public_key() of secp256k1::PublicKey: drops the parity. -/
def SecpPublicKey.x_only (pk : SecpPublicKey) : SecpXOnlyPublicKey :=
  ⟨pk.x⟩

/-- serialize() of secp256k1::XOnlyPublicKey: the 32 bytes of x. -/
def SecpXOnlyPublicKey.serialize (k : SecpXOnlyPublicKey) : List Nat :=
  k.x

/-- Error cases of kaspa_wallet_keys::error::Error reached by this module.
InvalidKeyFormat stands for the secp256k1 parse error that try_new propagates;
the other two are the named variants the source returns. -/
inductive KeyError
  | InvalidKeyFormat
  | InvalidXOnlyPublicKeyForECDSA
  | InvalidPublicKey
deriving DecidableEq, Repr

/-- publickey.rs lines 32-37: PublicKey holds an x-only key and an optional
full key. -/
structure PublicKey where
  xonly_public_key : SecpXOnlyPublicKey
  public_key : Option SecpPublicKey
deriving DecidableEq, Repr

/-- publickey.rs lines 168-180: From a full secp256k1 key, storing the derived
x-only projection alongside it. -/
def PublicKey.fromFull (pk : SecpPublicKey) : PublicKey :=
  ⟨pk.x_only, some pk⟩

/-- publickey.rs lines 44-49 (PublicKey::try_new): parse as a full public key
first; on failure parse as an x-only key; propagate the error when both fail.
The two hex parsers of the secp256k1 crate are uninterpreted parameters. -/
def PublicKey.try_new (parseFull : String → Option SecpPublicKey)
    (parseXOnly : String → Option SecpXOnlyPublicKey) (key : String) :
    Except KeyError PublicKey :=
  match parseFull key with
  | some public_key => .ok (PublicKey.fromFull public_key)
  | none =>
    match parseXOnly key with
    | some xonly => .ok ⟨xonly, none⟩
    | none => .error .InvalidKeyFormat

/-- publickey.rs lines 52-54 (to_string_impl): Display of the full key when
present, Display of the x-only key otherwise; both render lowercase hex of
their serialization. -/
def PublicKey.to_string_impl (p : PublicKey) : String :=
  match p.public_key with
  | some pk => toHex pk.serialize
  | none => toHex p.xonly_public_key.serialize

/-- publickey.rs lines 84-91 (PublicKey::fingerprint): on a full key, the hex
of the first 4 bytes of RIPEMD160(SHA256(serialize())); None otherwise.  The
two hash functions are uninterpreted parameters. -/
def PublicKey.fingerprint (sha256 ripemd160 : List Nat → List Nat)
    (p : PublicKey) : Option String :=
  match p.public_key with
  | some public_key =>
    some (toHex ((ripemd160 (sha256 public_key.serialize)).take 4))
  | none => none

/-- kaspa_consensus_core::network::NetworkType, the fixed enumeration of
network types. -/
inductive NetworkType
  | Mainnet
  | Testnet
  | Devnet
  | Simnet
deriving DecidableEq, Repr

/-- kaspa_addresses::Prefix (external crate): the address prefix is a pure
function of the network type; From NetworkType is the evident bijection.
Named AddressTag because the source field name is a Lean keyword. -/
inductive AddressTag
  | mainnet
  | testnet
  | devnet
  | simnet
deriving DecidableEq, Repr

/-- The From NetworkType instance of kaspa_addresses::Prefix. -/
def NetworkType.toTag : NetworkType → AddressTag
  | .Mainnet => .mainnet
  | .Testnet => .testnet
  | .Devnet => .devnet
  | .Simnet => .simnet

/-- kaspa_addresses::Version: the address version tag. -/
inductive AddressVersion
  | PubKey
  | PubKeyECDSA
  | ScriptHash
deriving DecidableEq, Repr

/-- kaspa_addresses::Address as this module uses it: network tag, version and
payload bytes.  Address::new stores the three fields. -/
structure Address where
  tag : AddressTag
  version : AddressVersion
  payload : List Nat
deriving DecidableEq, Repr

/-- Address::new of the kaspa_addresses crate. -/
def Address.new (tag : AddressTag) (version : AddressVersion)
    (payload : List Nat) : Address :=
  ⟨tag, version, payload⟩

/-- publickey.rs lines 124-128 (PublicKey::to_address): Schnorr address, the
payload is the x-only serialization, version PubKey. -/
def PublicKey.to_address (p : PublicKey) (network_type : NetworkType) :
    Except KeyError Address :=
  .ok (Address.new network_type.toTag .PubKey p.xonly_public_key.serialize)

/-- publickey.rs lines 131-139 (PublicKey::to_address_ecdsa): the payload is
the full serialization, version PubKeyECDSA; error when no full key is held. -/
def PublicKey.to_address_ecdsa (p : PublicKey) (network_type : NetworkType) :
    Except KeyError Address :=
  match p.public_key with
  | some public_key =>
    .ok (Address.new network_type.toTag .PubKeyECDSA public_key.serialize)
  | none => .error .InvalidXOnlyPublicKeyForECDSA

/-- publickey.rs lines 154-166 (TryFrom PublicKey for secp256k1::PublicKey):
public_key.ok_or(Error::InvalidPublicKey). -/
def PublicKey.try_into_full (p : PublicKey) : Except KeyError SecpPublicKey :=
  match p.public_key with
  | some public_key => .ok public_key
  | none => .error .InvalidPublicKey

/-- publickey.rs lines 231-234: the XOnlyPublicKey wrapper. -/
structure XOnlyPublicKey where
  inner : SecpXOnlyPublicKey
deriving DecidableEq, Repr

/-- publickey.rs lines 259-263 (XOnlyPublicKey::to_address): payload is the
x-only serialization, version PubKey. -/
def XOnlyPublicKey.to_address (k : XOnlyPublicKey) (network : NetworkType) :
    Except KeyError Address :=
  .ok (Address.new network.toTag .PubKey k.inner.serialize)

/-- publickey.rs lines 269-273 (XOnlyPublicKey::to_address_ecdsa): payload is
the x-only serialization (32 bytes), version PubKeyECDSA; no failure path. -/
def XOnlyPublicKey.to_address_ecdsa (k : XOnlyPublicKey)
    (network : NetworkType) : Except KeyError Address :=
  .ok (Address.new network.toTag .PubKeyECDSA k.inner.serialize)

/-- secp256k1::XOnlyPublicKey::from_slice: accepts exactly 32 bytes that form
a valid x coordinate.  Validity of an x coordinate (field membership and being
on curve) is an uninterpreted parameter. -/
def SecpXOnlyPublicKey.from_slice (validX : List Nat → Bool)
    (bytes : List Nat) : Except KeyError SecpXOnlyPublicKey :=
  if bytes.length = 32 && validX bytes then .ok ⟨bytes⟩
  else .error .InvalidKeyFormat

/-- publickey.rs lines 276-278 (XOnlyPublicKey::from_address): parse the
address payload with secp256k1::XOnlyPublicKey::from_slice. -/
def XOnlyPublicKey.from_address (validX : List Nat → Bool)
    (address : Address) : Except KeyError XOnlyPublicKey :=
  match SecpXOnlyPublicKey.from_slice validX address.payload with
  | .ok k => .ok ⟨k⟩
  | .error e => .error e

/-- kaspa_consensus_core::network::NetworkId: a network type with an optional
numeric suffix. -/
structure NetworkId where
  network_type : NetworkType
  suffix : Option Nat
deriving DecidableEq, Repr

/-- Modelled from the spec: NetworkType::FromStr of kaspa_consensus_core is
not under src/.  The spec fixes the enumeration as
mainnet/testnet/devnet/simnet and says parsing fails on any other token. -/
def NetworkType.from_str (s : String) : Option NetworkType :=
  if s = "mainnet" then some .Mainnet
  else if s = "testnet" then some .Testnet
  else if s = "devnet" then some .Devnet
  else if s = "simnet" then some .Simnet
  else none

/-- Modelled from the spec: TryFrom NetworkType for NetworkId of
kaspa_consensus_core is not under src/.  The spec says the canonical
(suffix-free) identifier exists exactly for types with a single canonical
instance — mainnet succeeds suffix-free, devnet fails with SuffixRequired,
and testnet (multiple concurrent test networks) and simnet likewise lack a
canonical instance. -/
def NetworkId.tryFromType : NetworkType → Option NetworkId
  | .Mainnet => some ⟨.Mainnet, none⟩
  | _ => none

/-- NetworkId::with_suffix of kaspa_consensus_core. -/
def NetworkId.with_suffix (network_type : NetworkType) (suffix : Nat) :
    NetworkId :=
  ⟨network_type, some suffix⟩

/-- resolver.rs lines 86-94 (into_network_id): parse the type token, try the
canonical suffix-free identifier, otherwise require a suffix.  Errors are the
PyException messages the source constructs. -/
def into_network_id (network : String) (network_suffix : Option Nat) :
    Except String NetworkId :=
  match NetworkType.from_str network with
  | none => .error "Invalid network type"
  | some network_type =>
    match NetworkId.tryFromType network_type with
    | some nid => .ok nid
    | none =>
      match network_suffix with
      | none => .error "Network suffix required for this network"
      | some suffix => .ok (NetworkId.with_suffix network_type suffix)

/-- kaspa_wrpc_client::WrpcEncoding, the wire encodings. -/
inductive WrpcEncoding
  | Borsh
  | SerdeJson
deriving DecidableEq, Repr

/-- Modelled from the spec: WrpcEncoding::FromStr of kaspa_wrpc_client is not
under src/.  The spec fixes the encoding tokens as borsh and json; any other
token fails to parse. -/
def WrpcEncoding.from_str (s : String) : Option WrpcEncoding :=
  if s = "borsh" then some .Borsh
  else if s = "json" then some .SerdeJson
  else none

/-- Modelled from the spec: kaspa_wrpc_client::Resolver (NativeResolver) is
not under src/.  The spec says it holds an immutable, ordered URL pool plus a
TLS flag, fixed at construction; the built-in default pool is the
no-explicit-urls configuration, for which urls() reports no configured list. -/
structure NativeResolver where
  urlsOpt : Option (List String)
  tls : Bool
deriving DecidableEq, Repr

/-- Resolver::new of kaspa_wrpc_client: stores the explicit URL list. -/
def NativeResolver.new (urls : Option (List String)) (tls : Bool) :
    NativeResolver :=
  ⟨urls, tls⟩

/-- Resolver::default of kaspa_wrpc_client: the built-in default pool. -/
def NativeResolver.defaultPool : NativeResolver :=
  ⟨none, false⟩

/-- urls() of kaspa_wrpc_client::Resolver: the configured explicit list. -/
def NativeResolver.urls (r : NativeResolver) : Option (List String) :=
  r.urlsOpt

/-- resolver.rs lines 9-13: the Python Resolver wraps a NativeResolver. -/
structure Resolver where
  resolver : NativeResolver
deriving DecidableEq, Repr

/-- resolver.rs lines 24-31 (Resolver::ctor): tls defaults to false; an
explicit URL list goes to NativeResolver::new, otherwise the default pool. -/
def Resolver.ctor (urls : Option (List String)) (tls : Option Bool) :
    Except String Resolver :=
  let t := tls.getD false
  match urls with
  | some us => .ok ⟨NativeResolver.new (some us) t⟩
  | none => .ok ⟨NativeResolver.defaultPool⟩

/-- resolver.rs lines 36-38 (Resolver::urls): the configured pool, empty when
none was configured. -/
def Resolver.urls (r : Resolver) : List String :=
  (r.resolver.urls).getD []

/-- Outcome of a Python-facing call: a value, a typed PyException with its
message, or a Rust panic. -/
inductive PyOutcome (α : Type)
  | ok (a : α)
  | err (msg : String)
  | panicked
deriving DecidableEq, Repr

/-- resolver.rs lines 40-42, 53-55 and 64-66: the synchronous argument
validation shared by get_node, get_url and connect.  The encoding is parsed
with WrpcEncoding::from_str followed by .unwrap(), which panics on a parse
error; then into_network_id turns network errors into typed PyExceptions. -/
def Resolver.requestSetup (encoding network : String)
    (network_suffix : Option Nat) : PyOutcome (WrpcEncoding × NetworkId) :=
  match WrpcEncoding.from_str encoding with
  | none => .panicked
  | some enc =>
    match into_network_id network network_suffix with
    | .error m => .err m
    | .ok nid => .ok (enc, nid)

theorem toHexChars_length (bs : List Nat) :
    (toHexChars bs).length = 2 * bs.length := by
  induction bs with
  | nil => rfl
  | cons b t ih =>
    simp only [toHexChars, List.length_cons, ih]
    omega

theorem toHex_length (bs : List Nat) : (toHex bs).length = 2 * bs.length := by
  show (toHexChars bs).length = 2 * bs.length
  exact toHexChars_length bs

/-- C1: for every key carrying a full representation, fingerprint returns some
hex encoding of the first 4 bytes of RIPEMD160(SHA256(serialized full key));
for every key without one it returns none, not an error. -/
theorem C1_fingerprint_spec (sha256 ripemd160 : List Nat → List Nat)
    (p : PublicKey) :
    p.fingerprint sha256 ripemd160 =
      p.public_key.map
        (fun pk => toHex ((ripemd160 (sha256 pk.serialize)).take 4)) := by
  cases h : p.public_key <;> simp [PublicKey.fingerprint, h]

/-- C2 counterexample: an x-only key (which has no full representation)
nevertheless derives an ECDSA address successfully: XOnlyPublicKey's
to_address_ecdsa returns an address with the 32-byte x-only payload and the
ECDSA version tag instead of failing with MissingFullKey. -/
theorem C2_counterexample :
    XOnlyPublicKey.to_address_ecdsa ⟨⟨List.replicate 32 1⟩⟩ NetworkType.Mainnet
      = Except.ok (Address.new AddressTag.mainnet AddressVersion.PubKeyECDSA
          (List.replicate 32 1)) := rfl

/-- C2 (amended): a PublicKey lacking a full representation fails with
MissingFullKey (InvalidXOnlyPublicKeyForECDSA) on to_address_ecdsa, and with a
full representation the ECDSA address carries the full serialization; the
standalone XOnlyPublicKey type, however, derives an ECDSA address successfully
with the x-only serialization as payload. -/
theorem C2_ecdsa_address (p : PublicKey) (network : NetworkType)
    (k : XOnlyPublicKey) :
    (p.public_key = none →
      p.to_address_ecdsa network =
        Except.error KeyError.InvalidXOnlyPublicKeyForECDSA) ∧
    (∀ pk, p.public_key = some pk →
      p.to_address_ecdsa network =
        Except.ok (Address.new network.toTag AddressVersion.PubKeyECDSA
          pk.serialize)) ∧
    XOnlyPublicKey.to_address_ecdsa k network =
      Except.ok (Address.new network.toTag AddressVersion.PubKeyECDSA
        k.inner.serialize) := by
  refine ⟨fun h => ?_, fun pk h => ?_, rfl⟩ <;>
    simp [PublicKey.to_address_ecdsa, h]

theorem C2_witness :
    PublicKey.to_address_ecdsa ⟨⟨List.replicate 32 1⟩, none⟩ NetworkType.Mainnet
      = Except.error KeyError.InvalidXOnlyPublicKeyForECDSA :=
  (C2_ecdsa_address ⟨⟨List.replicate 32 1⟩, none⟩ NetworkType.Mainnet
    ⟨⟨List.replicate 32 1⟩⟩).1 rfl

/-- C3: into_network_id fails with "Invalid network type" on an unrecognized
type token; succeeds with the canonical suffix-free identifier (ignoring any
supplied suffix) when the type has one; fails with "Network suffix required
for this network" when the type needs disambiguation and no suffix is given;
and otherwise combines the type with the given suffix. -/
theorem C3_into_network_id (network : String) (network_suffix : Option Nat) :
    (NetworkType.from_str network = none →
      into_network_id network network_suffix =
        Except.error "Invalid network type") ∧
    (∀ nt nid, NetworkType.from_str network = some nt →
      NetworkId.tryFromType nt = some nid →
      into_network_id network network_suffix = Except.ok nid ∧
        nid.suffix = none) ∧
    (∀ nt, NetworkType.from_str network = some nt →
      NetworkId.tryFromType nt = none → network_suffix = none →
      into_network_id network network_suffix =
        Except.error "Network suffix required for this network") ∧
    (∀ nt s, NetworkType.from_str network = some nt →
      NetworkId.tryFromType nt = none → network_suffix = some s →
      into_network_id network network_suffix =
        Except.ok (NetworkId.with_suffix nt s)) := by
  refine ⟨fun h => ?_, fun nt nid h1 h2 => ⟨?_, ?_⟩, fun nt h1 h2 h3 => ?_,
    fun nt s h1 h2 h3 => ?_⟩
  · simp [into_network_id, h]
  · simp [into_network_id, h1, h2]
  · cases nt <;> simp [NetworkId.tryFromType] at h2
    simp [← h2]
  · simp [into_network_id, h1, h2, h3]
  · simp [into_network_id, h1, h2, h3]

theorem C3_witness :
    into_network_id "devnet" none =
      Except.error "Network suffix required for this network" :=
  (C3_into_network_id "devnet" none).2.2.1 NetworkType.Devnet rfl rfl rfl

/-- C4: try_new attempts a full-key parse first, only then a 32-byte x-only
parse; the result carries a full representation exactly when the full parse
succeeded, and parsing fails with InvalidKeyFormat when both attempts fail. -/
theorem C4_try_new (parseFull : String → Option SecpPublicKey)
    (parseXOnly : String → Option SecpXOnlyPublicKey) (key : String) :
    (∀ pk, parseFull key = some pk →
      PublicKey.try_new parseFull parseXOnly key =
        Except.ok (PublicKey.fromFull pk) ∧
      (PublicKey.fromFull pk).public_key = some pk) ∧
    (∀ xk, parseFull key = none → parseXOnly key = some xk →
      PublicKey.try_new parseFull parseXOnly key = Except.ok ⟨xk, none⟩) ∧
    (parseFull key = none → parseXOnly key = none →
      PublicKey.try_new parseFull parseXOnly key =
        Except.error KeyError.InvalidKeyFormat) ∧
    (∀ p, PublicKey.try_new parseFull parseXOnly key = Except.ok p →
      (p.public_key.isSome ↔ (parseFull key).isSome)) := by
  refine ⟨fun pk h => ⟨?_, rfl⟩, fun xk h1 h2 => ?_, fun h1 h2 => ?_,
    fun p hp => ?_⟩
  · simp [PublicKey.try_new, h]
  · simp [PublicKey.try_new, h1, h2]
  · simp [PublicKey.try_new, h1, h2]
  · cases hf : parseFull key with
    | some pk =>
      simp [PublicKey.try_new, hf] at hp
      simp [← hp, PublicKey.fromFull, hf]
    | none =>
      cases hx : parseXOnly key with
      | some xk =>
        simp [PublicKey.try_new, hf, hx] at hp
        simp [← hp, hf]
      | none => simp [PublicKey.try_new, hf, hx] at hp

theorem C4_witness :
    PublicKey.try_new (fun _ => none) (fun _ => none) "zz" =
      Except.error KeyError.InvalidKeyFormat :=
  (C4_try_new (fun _ => none) (fun _ => none) "zz").2.2.1 rfl rfl

/-- C5: building the Schnorr address of an x-only key and recovering a key from
that address's payload with from_address yields a key whose serialized bytes
equal the original serialization. -/
theorem C5_roundtrip (validX : List Nat → Bool) (k : XOnlyPublicKey)
    (network : NetworkType) (h32 : k.inner.x.length = 32)
    (hv : validX k.inner.x = true) :
    ∀ a, k.to_address network = Except.ok a →
      ∃ kk, XOnlyPublicKey.from_address validX a = Except.ok kk ∧
        kk.inner.serialize = k.inner.serialize := by
  intro a ha
  have haev : a = Address.new network.toTag AddressVersion.PubKey
      k.inner.serialize := by
    simpa [XOnlyPublicKey.to_address] using ha.symm
  subst haev
  refine ⟨⟨⟨k.inner.x⟩⟩, ?_, rfl⟩
  simp [XOnlyPublicKey.from_address, SecpXOnlyPublicKey.from_slice,
    Address.new, SecpXOnlyPublicKey.serialize, h32, hv]

theorem C5_witness :
    (List.replicate 32 1).length = 32 ∧
    ∃ kk, XOnlyPublicKey.from_address (fun _ => true)
        (Address.new AddressTag.mainnet AddressVersion.PubKey
          (List.replicate 32 1)) = Except.ok kk ∧
      kk.inner.serialize =
        SecpXOnlyPublicKey.serialize ⟨List.replicate 32 1⟩ :=
  ⟨by simp,
    C5_roundtrip (fun _ => true) ⟨⟨List.replicate 32 1⟩⟩ NetworkType.Mainnet
      (by simp) rfl
      (Address.new AddressTag.mainnet AddressVersion.PubKey
        (List.replicate 32 1)) rfl⟩

/-- C6: converting a verification key to a full key fails with the NotAFullKey
capability error (InvalidPublicKey) when the key was built from x-only-only
input, and returns the stored full key otherwise. -/
theorem C6_try_into_full (p : PublicKey) :
    (p.public_key = none →
      p.try_into_full = Except.error KeyError.InvalidPublicKey) ∧
    (∀ pk, p.public_key = some pk → p.try_into_full = Except.ok pk) := by
  refine ⟨fun h => ?_, fun pk h => ?_⟩ <;> simp [PublicKey.try_into_full, h]

theorem C6_witness :
    PublicKey.try_into_full ⟨⟨List.replicate 32 1⟩, none⟩ =
      Except.error KeyError.InvalidPublicKey :=
  (C6_try_into_full ⟨⟨List.replicate 32 1⟩, none⟩).1 rfl

/-- C7: evaluating the shared synchronous portion of get_node, get_url and
connect at an unsupported encoding token: the source's .unwrap() on
WrpcEncoding::from_str makes the call panic instead of returning the typed
failure the spec requires. -/
theorem C7_unwrap_panics_on_bad_encoding :
    Resolver.requestSetup "xml" "mainnet" none =
      PyOutcome.panicked := rfl

/-- C8 counterexample: two distinct full keys sharing an x coordinate (the two
parity twins 02||x and 03||x) produce identical (payload, version) pairs under
to_address for the same network, refuting the no-collision half of the
claim. -/
theorem C8_counterexample :
    PublicKey.fromFull ⟨true, List.replicate 32 1⟩ ≠
      PublicKey.fromFull ⟨false, List.replicate 32 1⟩ ∧
    (PublicKey.fromFull ⟨true, List.replicate 32 1⟩).to_address
        NetworkType.Mainnet =
      (PublicKey.fromFull ⟨false, List.replicate 32 1⟩).to_address
        NetworkType.Mainnet :=
  ⟨by decide, rfl⟩

/-- C8 (amended): to_address and to_address_ecdsa are deterministic and
byte-exact — on a full key they return the explicit address built from the
network tag, version and serialized bytes — and distinct full keys never
collide under to_address_ecdsa; under to_address, keys sharing the x
coordinate (parity twins) produce the same (payload, version) pair. -/
theorem C8_deterministic_ecdsa_injective (network : NetworkType)
    (k1 k2 : SecpPublicKey) :
    (PublicKey.fromFull k1).to_address network =
      Except.ok (Address.new network.toTag AddressVersion.PubKey k1.x) ∧
    (PublicKey.fromFull k1).to_address_ecdsa network =
      Except.ok (Address.new network.toTag AddressVersion.PubKeyECDSA
        ((if k1.parityEven then 2 else 3) :: k1.x)) ∧
    (k1 ≠ k2 →
      (PublicKey.fromFull k1).to_address_ecdsa network ≠
        (PublicKey.fromFull k2).to_address_ecdsa network) ∧
    (k1.x = k2.x →
      (PublicKey.fromFull k1).to_address network =
        (PublicKey.fromFull k2).to_address network) := by
  refine ⟨rfl, rfl, fun hne heq => hne ?_, fun hx => ?_⟩
  · have hs : SecpPublicKey.serialize k1 = SecpPublicKey.serialize k2 := by
      simpa [PublicKey.to_address_ecdsa, PublicKey.fromFull,
        Address.new] using heq
    cases k1 with
    | mk p1 x1 =>
      cases k2 with
      | mk p2 x2 =>
        simp only [SecpPublicKey.serialize] at hs
        cases p1 <;> cases p2 <;> simp_all
  · simp [PublicKey.to_address, PublicKey.fromFull, SecpPublicKey.x_only,
      SecpXOnlyPublicKey.serialize, hx]

theorem C8_witness :
    (PublicKey.fromFull ⟨true, List.replicate 32 1⟩).to_address_ecdsa
        NetworkType.Mainnet ≠
      (PublicKey.fromFull ⟨false, List.replicate 32 1⟩).to_address_ecdsa
        NetworkType.Mainnet :=
  (C8_deterministic_ecdsa_injective NetworkType.Mainnet
    ⟨true, List.replicate 32 1⟩ ⟨false, List.replicate 32 1⟩).2.2.1
    (by decide)

/-- C9: a resolver built with an explicit URL list reports exactly that list,
in construction order, through urls(); omitting the list selects the built-in
default pool. -/
theorem C9_resolver_urls (us : List String) (tls : Option Bool) :
    (∃ r, Resolver.ctor (some us) tls = Except.ok r ∧ r.urls = us) ∧
    Resolver.ctor none tls = Except.ok ⟨NativeResolver.defaultPool⟩ :=
  ⟨⟨⟨NativeResolver.new (some us) (tls.getD false)⟩, rfl, rfl⟩, rfl⟩

/-- C10: to_string renders the full-key serialization hex (66 characters) when
a full representation is present and the x-only serialization hex (64
characters) otherwise, so the rendered string identifies the variant. -/
theorem C10_to_string_variant (p : PublicKey)
    (hx : p.xonly_public_key.x.length = 32)
    (hf : ∀ pk, p.public_key = some pk → pk.x.length = 32) :
    (∀ pk, p.public_key = some pk →
      p.to_string_impl = toHex pk.serialize ∧
      p.to_string_impl.length = 66) ∧
    (p.public_key = none →
      p.to_string_impl = toHex p.xonly_public_key.serialize ∧
      p.to_string_impl.length = 64) := by
  refine ⟨fun pk h => ⟨?_, ?_⟩, fun h => ⟨?_, ?_⟩⟩
  · simp [PublicKey.to_string_impl, h]
  · have hl : pk.serialize.length = 33 := by
      simp [SecpPublicKey.serialize, hf pk h]
    simp [PublicKey.to_string_impl, h, toHex_length, hl]
  · simp [PublicKey.to_string_impl, h]
  · simp [PublicKey.to_string_impl, h, toHex_length,
      SecpXOnlyPublicKey.serialize, hx]

theorem C10_witness :
    PublicKey.to_string_impl ⟨⟨List.replicate 32 1⟩, none⟩ =
      toHex (SecpXOnlyPublicKey.serialize ⟨List.replicate 32 1⟩) ∧
    (PublicKey.to_string_impl ⟨⟨List.replicate 32 1⟩, none⟩).length = 64 :=
  (C10_to_string_variant ⟨⟨List.replicate 32 1⟩, none⟩ (by simp)
    (fun pk h => nomatch h)).2 rfl

end KaspaDbr
